import Mathlib

/-!
Shallow embedding of the `cpp-example` test fixture
(`meta-selftest/recipes-test/cpp/files/`):

* `cpp-example-lib.hpp` / `cpp-example-lib.cpp` define `CppExample`, holding the
  constant `test_string` and two accessors, `get_string` and
  `get_json_c_version`.
* `cpp-example.cpp` is the demonstration program.
* `test-cpp-example.cpp` is the verification program.

All the code is pure apart from writing lines to standard output and the call
into the json-c library.  The embedding therefore models each program as a
function producing the list of lines written to standard output together with
the process exit code, and models the result of the `json_c_version()` call by
an explicit parameter (json-c is a third-party dependency, not part of this
repository).
-/

namespace CppExample

/-- The constant `CppExample::test_string` (cpp-example-lib.hpp, line 12). -/
def test_string : String := "cpp-example-lib Magic: 123456789"

/-- Member function `CppExample::get_string` (cpp-example-lib.cpp, lines 11-13):
it returns `test_string`. -/
def get_string : String := test_string

/-- Member function `CppExample::get_json_c_version` (cpp-example-lib.cpp,
lines 15-17): it returns the result of the `json_c_version()` call into json-c
unchanged.  The result of that call is the parameter `jsonCVersion`. -/
def get_json_c_version (jsonCVersion : String) : String := jsonCVersion

end CppExample

/-- Observable result of running one of the consumer programs: the lines
written to standard output, and the process exit code. -/
structure ProcResult where
  output : List String
  exitCode : Nat
deriving DecidableEq, Repr

/-- The body of the verification program `main` (test-cpp-example.cpp,
lines 11-20), parameterized by the string `ret_string` that the call
`cpp_example.get_string()` returned.  The C++ comparison
`0 == ret_string.compare(CppExample::test_string)` holds exactly when the two
strings are equal.  In the PASS branch control falls off the end of `main`,
which in C++ returns 0. -/
def testMainWith (ret_string : String) : ProcResult :=
  if ret_string = CppExample.test_string then
    ⟨["PASS: " ++ ret_string ++ " = " ++ CppExample.test_string], 0⟩
  else
    ⟨["FAIL: " ++ ret_string ++ " != " ++ CppExample.test_string], 1⟩

/-- The verification program as written: its `ret_string` is the result of the
fixed implementation of `get_string` (cpp-example-lib.cpp, lines 11-13). -/
def testMain : ProcResult :=
  testMainWith CppExample.get_string

/-- The demonstration program `main` (cpp-example.cpp, lines 11-16),
parameterized by the `json_c_version()` result.  It prints two lines and
returns 0 unconditionally. -/
def demoMain (jsonCVersion : String) : ProcResult :=
  ⟨["C++ example linking " ++ CppExample.get_string,
    "Linking json-c version " ++ CppExample.get_json_c_version jsonCVersion],
   0⟩

/-- A run of the demonstration program as the operating system sees it: the
process is handed argument and environment lists, but `int main()` in
cpp-example.cpp takes no parameters and reads neither, so both are ignored. -/
def demoMainRun (_args : List String) (_env : List (String × String))
    (jsonCVersion : String) : ProcResult :=
  demoMain jsonCVersion

/-- A run of the verification program as the operating system sees it:
`int main()` in test-cpp-example.cpp takes no parameters and reads neither the
arguments nor the environment, so both are ignored. -/
def testMainRun (_args : List String) (_env : List (String × String)) :
    ProcResult :=
  testMain

/-- Two successive calls of `get_string()` within one process, in call order. -/
def get_string_twice : String × String :=
  (CppExample.get_string, CppExample.get_string)

/-- Two successive calls of `get_json_c_version()` within one process in which
the underlying `json_c_version()` function returns `jsonCVersion`. -/
def get_json_c_version_twice (jsonCVersion : String) : String × String :=
  (CppExample.get_json_c_version jsonCVersion,
   CppExample.get_json_c_version jsonCVersion)

/-- The two member functions of `CppExample`, as the operations a consumer can
perform on the library during a run. -/
inductive Op where
  | getString : Op
  | getJsonCVersion : Op
deriving DecidableEq, Repr

/-- The process-wide state owned by the library: the one `inline static const`
string `test_string` (cpp-example-lib.hpp, line 12).  There is no other state. -/
structure LibState where
  test_string : String
deriving DecidableEq, Repr

/-- The library state at program start: `test_string` is initialized at load
time to the literal from cpp-example-lib.hpp, line 12. -/
def initState : LibState :=
  ⟨"cpp-example-lib Magic: 123456789"⟩

/-- One member-function call: the resulting state and the observed string.
Neither `get_string` nor `get_json_c_version` writes any field
(cpp-example-lib.cpp, lines 11-17). -/
def step (jsonCVersion : String) (s : LibState) (op : Op) : LibState × String :=
  match op with
  | Op.getString => (s, s.test_string)
  | Op.getJsonCVersion => (s, jsonCVersion)

/-- The library state after an arbitrary sequence of member-function calls. -/
def runOps (jsonCVersion : String) (s : LibState) (ops : List Op) : LibState :=
  ops.foldl (fun t op => (step jsonCVersion t op).1) s

/-- Appending of embedded strings is associative (helper). -/
theorem strAppend_assoc (a b c : String) : a ++ b ++ c = a ++ (b ++ c) := by
  apply String.ext
  simp

/-- No member-function call changes the library state (helper). -/
theorem step_fst (jsonCVersion : String) (s : LibState) (op : Op) :
    (step jsonCVersion s op).1 = s := by
  cases op <;> rfl

/-- An arbitrary sequence of member-function calls leaves the library state
unchanged (helper). -/
theorem runOps_eq (jsonCVersion : String) (s : LibState) (ops : List Op) :
    runOps jsonCVersion s ops = s := by
  induction ops generalizing s with
  | nil => rfl
  | cons op ops ih =>
      simp only [runOps, List.foldl_cons] at *
      rw [step_fst]
      exact ih s

/-- Claim C1: for every instance of `CppExample` (instances carry no state, so
the member function is the same for all of them), `get_string()` returns
exactly the constant string "cpp-example-lib Magic: 123456789", the value of
`CppExample::test_string`; being a pure value in this embedding, the call has
no side effects. -/
theorem C1_get_string_constant :
    CppExample.get_string = CppExample.test_string ∧
    CppExample.get_string = "cpp-example-lib Magic: 123456789" :=
  ⟨rfl, rfl⟩

/-- Claim C2: whenever the string returned by `get_string()` equals
`CppExample::test_string`, the verification program prints exactly one line,
namely "PASS: cpp-example-lib Magic: 123456789 = cpp-example-lib Magic:
123456789", every printed line begins with "PASS", and the program exits with
code 0. -/
theorem C2_pass (ret_string : String)
    (h : ret_string = CppExample.test_string) :
    (testMainWith ret_string).output =
      ["PASS: cpp-example-lib Magic: 123456789 = cpp-example-lib Magic: 123456789"] ∧
    (testMainWith ret_string).exitCode = 0 ∧
    ∀ line ∈ (testMainWith ret_string).output,
      ∃ rest, line = "PASS" ++ rest := by
  subst h
  refine ⟨rfl, rfl, ?_⟩
  intro line hline
  have h1 : line ∈
      ["PASS: cpp-example-lib Magic: 123456789 = cpp-example-lib Magic: 123456789"] :=
    hline
  rw [List.mem_singleton] at h1
  subst h1
  exact ⟨": cpp-example-lib Magic: 123456789 = cpp-example-lib Magic: 123456789",
    by decide⟩

/-- Witness for claim C2, at the concrete returned string equal to the
constant. -/
theorem C2_pass_witness :
    (testMainWith "cpp-example-lib Magic: 123456789").output =
      ["PASS: cpp-example-lib Magic: 123456789 = cpp-example-lib Magic: 123456789"] ∧
    (testMainWith "cpp-example-lib Magic: 123456789").exitCode = 0 ∧
    ∀ line ∈ (testMainWith "cpp-example-lib Magic: 123456789").output,
      ∃ rest, line = "PASS" ++ rest :=
  C2_pass "cpp-example-lib Magic: 123456789" rfl

/-- Claim C3: whenever the string returned by `get_string()` differs from
`CppExample::test_string`, the verification program prints exactly one line,
"FAIL: <returned> != <constant>", every printed line begins with "FAIL", and
the program exits with code 1. -/
theorem C3_fail (ret_string : String)
    (h : ret_string ≠ CppExample.test_string) :
    (testMainWith ret_string).output =
      ["FAIL: " ++ ret_string ++ " != " ++ CppExample.test_string] ∧
    (testMainWith ret_string).exitCode = 1 ∧
    ∀ line ∈ (testMainWith ret_string).output,
      ∃ rest, line = "FAIL" ++ rest := by
  have hout : testMainWith ret_string =
      ⟨["FAIL: " ++ ret_string ++ " != " ++ CppExample.test_string], 1⟩ := by
    simp [testMainWith, h]
  rw [hout]
  refine ⟨rfl, rfl, ?_⟩
  intro line hline
  rw [List.mem_singleton] at hline
  subst hline
  refine ⟨": " ++ ret_string ++ " != " ++ CppExample.test_string, ?_⟩
  simp only [← strAppend_assoc]
  rfl

/-- Witness for claim C3, at the concrete returned string "" (different from
the constant). -/
theorem C3_fail_witness :
    (testMainWith "").output =
      ["FAIL: " ++ "" ++ " != " ++ CppExample.test_string] ∧
    (testMainWith "").exitCode = 1 ∧
    ∀ line ∈ (testMainWith "").output, ∃ rest, line = "FAIL" ++ rest :=
  C3_fail "" (by decide)

/-- Claim C4: for every possible result of the underlying `json_c_version()`
function, `get_json_c_version()` returns that result unchanged. -/
theorem C4_version_forwarded (jsonCVersion : String) :
    CppExample.get_json_c_version jsonCVersion = jsonCVersion :=
  rfl

/-- Claim C5: whenever the underlying `json_c_version()` result is non-empty
(the contract the specification states for the json-c collaborator), the
string returned by `get_json_c_version()` is non-empty. -/
theorem C5_version_nonempty (jsonCVersion : String) (h : jsonCVersion ≠ "") :
    CppExample.get_json_c_version jsonCVersion ≠ "" :=
  h

/-- Witness for claim C5, at the concrete version string "0.17". -/
theorem C5_version_nonempty_witness :
    CppExample.get_json_c_version "0.17" ≠ "" :=
  C5_version_nonempty "0.17" (by decide)

/-- Claim C6: for every result of the underlying `json_c_version()` function,
the demonstration program prints the constant string and the version string to
standard output and exits with code 0. -/
theorem C6_demo_output (jsonCVersion : String) :
    (demoMain jsonCVersion).output =
      ["C++ example linking cpp-example-lib Magic: 123456789",
       "Linking json-c version " ++ jsonCVersion] ∧
    (demoMain jsonCVersion).exitCode = 0 :=
  ⟨rfl, rfl⟩

/-- Claim C7: within one process, in which the underlying `json_c_version()`
function is fixed, two successive calls of `get_string()` return equal values,
and two successive calls of `get_json_c_version()` return equal values. -/
theorem C7_idempotent (jsonCVersion : String) :
    get_string_twice.1 = get_string_twice.2 ∧
    (get_json_c_version_twice jsonCVersion).1 =
      (get_json_c_version_twice jsonCVersion).2 :=
  ⟨rfl, rfl⟩

/-- Claim C8: after an arbitrary sequence of member-function calls (no
operation of `CppExample` mutates the constant), the stored value of
`test_string` and the value observed by a further `get_string()` call both
equal "cpp-example-lib Magic: 123456789" as defined. -/
theorem C8_constant_never_changes (jsonCVersion : String) (ops : List Op) :
    (runOps jsonCVersion initState ops).test_string =
      "cpp-example-lib Magic: 123456789" ∧
    (step jsonCVersion (runOps jsonCVersion initState ops) Op.getString).2 =
      "cpp-example-lib Magic: 123456789" := by
  constructor
  · rw [runOps_eq]
    rfl
  · rw [runOps_eq]
    rfl

/-- Claim C9: in the verification program as written, the comparison succeeds,
the program prints the PASS line, exits with code 0 (never 1), and no printed
line begins with "FAIL": the FAIL branch is unreachable. -/
theorem C9_fail_unreachable :
    CppExample.get_string = CppExample.test_string ∧
    testMain.output =
      ["PASS: cpp-example-lib Magic: 123456789 = cpp-example-lib Magic: 123456789"] ∧
    testMain.exitCode = 0 ∧
    testMain.exitCode ≠ 1 ∧
    ∀ line ∈ testMain.output, ¬ ∃ rest, line = "FAIL" ++ rest := by
  refine ⟨rfl, rfl, rfl, by decide, ?_⟩
  intro line hline
  have h1 : line ∈
      ["PASS: cpp-example-lib Magic: 123456789 = cpp-example-lib Magic: 123456789"] :=
    hline
  rw [List.mem_singleton] at h1
  subst h1
  rintro ⟨rest, h⟩
  have h4 := congrArg (fun s => s.data.take 4) h
  simp [String.data_append] at h4

/-- Claim C10: both consumer programs are deterministic: for a fixed result of
the underlying `json_c_version()` function, any two runs of the demonstration
program, whatever arguments and environment the operating system hands them,
produce identical output and exit codes, and likewise any two runs of the
verification program. -/
theorem C10_deterministic (jsonCVersion : String)
    (args1 args2 : List String) (env1 env2 : List (String × String)) :
    demoMainRun args1 env1 jsonCVersion = demoMainRun args2 env2 jsonCVersion ∧
    testMainRun args1 env1 = testMainRun args2 env2 :=
  ⟨rfl, rfl⟩
